import Mathlib

/-!
Shallow embedding of the bidirectional quality-comparison engine of
`video_batch_compare.py` (class `VideoComparator`), together with proofs of
the specified properties.  Scores are modelled as exact rationals; the
`Option` type models Python's `None` ("unavailable"); `Except Unit` models a
raised exception inside a `try` block.
-/

namespace VideoBatchCompare

/-- Winner of one channel (video or audio) of a row. -/
inductive Winner where
  | left
  | right
  | tie
deriving DecidableEq, Repr

/-- Run-wide video metric selection (`self.current_metric`). -/
inductive MetricKind where
  | VMAF
  | SSIM
deriving DecidableEq, Repr

/-- The `comparison_type` tag: which file is the reference in one
directional invocation. -/
inductive Direction where
  | left_ref
  | right_ref
deriving DecidableEq, Repr

/-- Result dict of `determine_video_winner` / `determine_audio_winner` /
`run_audio_analysis_fallback`: keys `winner`, `left_score`, `right_score`. -/
structure CompResult where
  winner : Winner
  left_score : ℚ
  right_score : ℚ
deriving DecidableEq, Repr

/-- Result dict returned by `compare_row`: all six keys of the literal at
lines 725-732 of the source. -/
structure RowResult where
  video_winner : Winner
  audio_winner : Winner
  video_score_left : ℚ
  video_score_right : ℚ
  audio_score_left : ℚ
  audio_score_right : ℚ
deriving DecidableEq, Repr

/-- `self.vmaf_win_threshold = 2.0` -/
def vmaf_win_threshold : ℚ := 2

/-- `self.ssim_win_threshold = 0.01` -/
def ssim_win_threshold : ℚ := 1/100

/-- `self.psnr_win_threshold = 2.0` (the display-layer audio constant). -/
def psnr_win_threshold : ℚ := 2

/-- The threshold `determine_video_winner` compares against for each metric. -/
def videoThreshold : MetricKind → ℚ
  | .VMAF => vmaf_win_threshold
  | .SSIM => ssim_win_threshold

/-- `determine_video_winner(left_as_ref_score, right_as_ref_score, metric)`.
If either directional score is `None` the function returns
`{"winner": "tie", "left_score": 0, "right_score": 0}`.  Otherwise, for both
metrics: tie when `abs(left - right) < threshold`, else the strictly higher
side wins. -/
def determine_video_winner (left_as_ref_score right_as_ref_score : Option ℚ)
    (metric : MetricKind) : CompResult :=
  match left_as_ref_score, right_as_ref_score with
  | some left_quality, some right_quality =>
      if |left_quality - right_quality| < videoThreshold metric then
        ⟨Winner.tie, left_quality, right_quality⟩
      else if left_quality > right_quality then
        ⟨Winner.left, left_quality, right_quality⟩
      else
        ⟨Winner.right, left_quality, right_quality⟩
  | _, _ => ⟨Winner.tie, 0, 0⟩

/-- One observable external invocation made by the audio path: a loudness
measurement (`get_audio_loudness`) of one file, or an audio-PSNR run
(`run_single_audio_comparison`). -/
inductive AudioOp where
  | loudnessOf (file : String)
  | psnrRun (referenceFile distortedFile : String)
deriving DecidableEq, Repr

/-- `run_audio_analysis_fallback(left_file, right_file)` (EBU R128 loudness).
`s0 s1 s2` are the values of `self.stop_event.is_set()` at the three check
points; `loud` is the environment mapping a file to the loudness that
`get_audio_loudness` would return for it.  Also returns the trace of
external invocations performed. -/
def run_audio_analysis_fallback (s0 s1 s2 : Bool) (loud : String → Option ℚ)
    (left_file right_file : String) : CompResult × List AudioOp :=
  if s0 then (⟨Winner.tie, 0, 0⟩, [])
  else
    let left_loudness := loud left_file
    if s1 then (⟨Winner.tie, 0, 0⟩, [AudioOp.loudnessOf left_file])
    else
      let right_loudness := loud right_file
      let ops := [AudioOp.loudnessOf left_file, AudioOp.loudnessOf right_file]
      if s2 then (⟨Winner.tie, 0, 0⟩, ops)
      else
        match left_loudness, right_loudness with
        | some ll, some rl =>
            let winner := if ll > rl then Winner.left else Winner.right
            let winner := if |ll - rl| < 1 then Winner.tie else winner
            (⟨winner, ll, rl⟩, ops)
        | _, _ => (⟨Winner.tie, 0, 0⟩, ops)

/-- `determine_audio_winner(left_as_ref_score, right_as_ref_score)`.
When both PSNR directional scores are present: tie within a hard-coded
1.0 dB band (line 1017: `abs(...) < 1.0`), else higher wins.  When either is
`None` it calls `run_audio_analysis_fallback` on the row's files. -/
def determine_audio_winner (left_as_ref_score right_as_ref_score : Option ℚ)
    (s0 s1 s2 : Bool) (loud : String → Option ℚ)
    (left_file right_file : String) : CompResult × List AudioOp :=
  match left_as_ref_score, right_as_ref_score with
  | some left_quality, some right_quality =>
      (if |left_quality - right_quality| < 1 then
        ⟨Winner.tie, left_quality, right_quality⟩
      else if left_quality > right_quality then
        ⟨Winner.left, left_quality, right_quality⟩
      else
        ⟨Winner.right, left_quality, right_quality⟩, [])
  | _, _ => run_audio_analysis_fallback s0 s1 s2 loud left_file right_file

/-- The comparison task list built by `run_comparisons` (lines 640-645):
one task `(i, left_files[i], right_files[i])` for each
`i in range(min(len(left_files), len(right_files)))`. -/
def comparison_tasks (left_files right_files : List String) :
    List (Nat × String × String) :=
  (List.range (min left_files.length right_files.length)).map
    (fun i => (i, left_files.getD i "", right_files.getD i ""))

/-- The submission loop of `run_comparisons` (lines 651-656): tasks are
submitted in order, but the loop breaks at the first iteration at which
`self.stop_event.is_set()` is observed true.  `stop j` is that observation
at iteration `j`. -/
def submit_tasks (stop : Nat → Bool) :
    Nat → List (Nat × String × String) → List (Nat × String × String)
  | _, [] => []
  | j, t :: ts => if stop j then [] else t :: submit_tasks stop (j + 1) ts

/-- Rows actually submitted by one `run_comparisons` call. -/
def run_comparisons_submitted (stop : Nat → Bool)
    (left_files right_files : List String) : List (Nat × String × String) :=
  submit_tasks stop 0 (comparison_tasks left_files right_files)

/-- `compare_row(row_idx, left_file, right_file)` (lines 700-736), abstracted
over its interactions: `s0 s1 s2` are the observations of
`self.stop_event.is_set()` at the three check points (line 703, line 712,
line 719), and `video_result` / `audio_result` are the outcomes of
`run_video_comparison` / `run_audio_comparison`, with `.error` modelling an
unexpected exception raised inside the `try` block (which the handler at
line 734 turns into `None`). -/
def compare_row (s0 : Bool) (video_result : Except Unit CompResult) (s1 : Bool)
    (audio_result : Except Unit CompResult) (s2 : Bool) : Option RowResult :=
  if s0 then none
  else
    match video_result with
    | .error _ => none
    | .ok v =>
      if s1 then none
      else
        match audio_result with
        | .error _ => none
        | .ok a =>
          if s2 then none
          else some ⟨v.winner, a.winner, v.left_score, v.right_score,
            a.left_score, a.right_score⟩

/-- The character class `[0-9.]` of the score-token regexes. -/
def isNumChar (c : Char) : Bool := c.isDigit || c == '.'

/-- Python's `\s` character class (ASCII). -/
def isPySpace (c : Char) : Bool :=
  c == ' ' || c == '\t' || c == '\n' || c == '\r' || c == '\x0B' || c == '\x0C'

/-- Match a literal pattern at the head of the text, returning the remainder. -/
def dropLit? : List Char → List Char → Option (List Char)
  | [], s => some s
  | _ :: _, [] => none
  | p :: ps, c :: cs => if p = c then dropLit? ps cs else none

/-- `re.search` driver: try the anchored matcher at every start position,
left to right (the leftmost full match wins). -/
def searchFrom {α : Type} (m : List Char → Option α) : List Char → Option α
  | [] => m []
  | c :: cs =>
    match m (c :: cs) with
    | some x => some x
    | none => searchFrom m cs

/-- Decimal value of a digit run (`int(...)` on a `\d+` capture). -/
def digitsVal (cs : List Char) : Nat :=
  cs.foldl (fun n c => n * 10 + (c.toNat - 48)) 0

/-- Python `float(tok)` on a token drawn from the class `[0-9.]`:
succeeds iff the token has at least one digit and at most one dot
(`float("...")` or `float("")` raise `ValueError`). -/
def pyFloat? (cs : List Char) : Option ℚ :=
  if cs.any Char.isDigit ∧ cs.count '.' ≤ 1 ∧ cs.all isNumChar then
    let ip := cs.takeWhile (· ≠ '.')
    let fp := (cs.dropWhile (· ≠ '.')).drop 1
    some ((digitsVal ip : ℚ) + (digitsVal fp : ℚ) / (10 : ℚ) ^ fp.length)
  else none

/-- `float(tok)` inside a `try` block: a bad token raises. -/
def floatOrRaise (tok : List Char) : Except Unit ℚ :=
  match pyFloat? tok with
  | some q => .ok q
  | none => .error ()

/-- `r'VMAF score:\s*([0-9.]+)'` anchored at the start of the text
(the greedy whitespace run cannot overlap the `[0-9.]+` capture, so the
pattern is deterministic). -/
def matchVmafScoreAt (s : List Char) : Option (List Char) :=
  match dropLit? "VMAF score:".data s with
  | none => none
  | some r =>
    let run := (r.dropWhile isPySpace).takeWhile isNumChar
    if run = [] then none else some run

/-- The `.*?([0-9.]+)` tail of the fallback pattern: the lazy gap stops at
the first `[0-9.]` character (`.` does not cross a newline), and the capture
is the maximal `[0-9.]` run from there.  Returns `(capture, rest)`. -/
def lazyNumRun : List Char → Option (List Char × List Char)
  | [] => none
  | c :: cs =>
    if isNumChar c then some (c :: cs.takeWhile isNumChar, cs.dropWhile isNumChar)
    else if c = '\n' then none
    else lazyNumRun cs

/-- `r'VMAF.*?([0-9.]+)'` anchored at the start of the text. -/
def matchVmafAnyAt (s : List Char) : Option (List Char × List Char) :=
  match dropLit? "VMAF".data s with
  | none => none
  | some r => lazyNumRun r

/-- `re.findall` driver: non-overlapping matches, scanning left to right and
resuming after each match's end.  Every matcher used here consumes at least
one character, so fuel equal to the text length never runs out. -/
def findAllAux (m : List Char → Option (List Char × List Char)) :
    Nat → List Char → List (List Char)
  | 0, _ => []
  | _ + 1, [] => []
  | fuel + 1, c :: cs =>
    match m (c :: cs) with
    | some (g, rest) => g :: findAllAux m fuel rest
    | none => findAllAux m fuel cs

/-- `re.findall(pattern, s)` (captures only). -/
def findAll (m : List Char → Option (List Char × List Char)) (s : List Char) :
    List (List Char) :=
  findAllAux m s.length s

/-- `parse_single_vmaf_output` (lines 1135-1157): body of its `try` block.
Tier 1 `re.search(r'VMAF score:\s*([0-9.]+)')`; tier 2
`re.findall(r'VMAF.*?([0-9.]+)')` taking the last capture; a failed
`float(...)` raises. -/
def parse_single_vmaf_body (s : List Char) : Except Unit (Option ℚ) :=
  match searchFrom matchVmafScoreAt s with
  | some tok => (floatOrRaise tok).map some
  | none =>
    match (findAll matchVmafAnyAt s).getLast? with
    | some tok => (floatOrRaise tok).map some
    | none => .ok none

/-- `parse_single_vmaf_output`: the `except` handler returns `None`. -/
def parse_single_vmaf_output (output : String) : Option ℚ :=
  match parse_single_vmaf_body output.data with
  | .ok r => r
  | .error _ => none

/-- `r'All:([0-9.]+)'` anchored at the start of the text. -/
def matchAllNumAt (s : List Char) : Option (List Char) :=
  match dropLit? "All:".data s with
  | none => none
  | some r =>
    let run := r.takeWhile isNumChar
    if run = [] then none else some run

/-- A `.*?` lazy gap followed by an inner pattern: the gap grows one
character at a time (never across a newline) until the inner pattern
matches. -/
def lazyGapTo {α : Type} (m : List Char → Option α) : List Char → Option α
  | [] => m []
  | c :: cs =>
    match m (c :: cs) with
    | some x => some x
    | none => if c = '\n' then none else lazyGapTo m cs

/-- `r'SSIM.*?All:([0-9.]+)'` anchored at the start of the text. -/
def matchSsimAllAt (s : List Char) : Option (List Char) :=
  match dropLit? "SSIM".data s with
  | none => none
  | some r => lazyGapTo matchAllNumAt r

/-- Python `pat in line` substring test. -/
def containsTok (pat s : List Char) : Bool :=
  (searchFrom (dropLit? pat) s).isSome

/-- Python `s.split('\n')`. -/
def splitLines : List Char → List (List Char)
  | [] => [[]]
  | c :: cs =>
    if c = '\n' then [] :: splitLines cs
    else
      match splitLines cs with
      | [] => [[c]]
      | l :: ls => (c :: l) :: ls

/-- Python `s.strip()` (ASCII whitespace). -/
def pyStrip (s : List Char) : List Char :=
  ((s.dropWhile isPySpace).reverse.dropWhile isPySpace).reverse

/-- The reverse line scan of `parse_single_ssim_output` (lines 1179-1186):
for each line (already reversed by the caller) containing `All:` and either
`Y:` or `SSIM`, search `r'All:([0-9.]+)'`; a line whose search fails is
skipped. -/
def ssimLineScan : List (List Char) → Option (List Char)
  | [] => none
  | l :: ls =>
    if containsTok "All:".data l && (containsTok "Y:".data l || containsTok "SSIM".data l) then
      match searchFrom matchAllNumAt l with
      | some tok => some tok
      | none => ssimLineScan ls
    else ssimLineScan ls

/-- `r'Y:([0-9.]+)'` anchored at the start of the text. -/
def matchYNumAt (s : List Char) : Option (List Char) :=
  match dropLit? "Y:".data s with
  | none => none
  | some r =>
    let run := r.takeWhile isNumChar
    if run = [] then none else some run

/-- `parse_single_ssim_output` (lines 1159-1201): body of its `try` block.
Tier 1 `re.search(r'All:([0-9.]+)')`; tier 2
`re.search(r'SSIM.*?All:([0-9.]+)')`; tier 3 the reverse line scan over
`output.strip().split('\n')`; tier 4 `re.search(r'Y:([0-9.]+)')`. -/
def parse_single_ssim_body (s : List Char) : Except Unit (Option ℚ) :=
  match searchFrom matchAllNumAt s with
  | some tok => (floatOrRaise tok).map some
  | none =>
    match searchFrom matchSsimAllAt s with
    | some tok => (floatOrRaise tok).map some
    | none =>
      match ssimLineScan ((splitLines (pyStrip s)).reverse) with
      | some tok => (floatOrRaise tok).map some
      | none =>
        match searchFrom matchYNumAt s with
        | some tok => (floatOrRaise tok).map some
        | none => .ok none

/-- `parse_single_ssim_output`: the `except` handler returns `None`. -/
def parse_single_ssim_output (output : String) : Option ℚ :=
  match parse_single_ssim_body output.data with
  | .ok r => r
  | .error _ => none

/-- The SSIM cascade as the spec words it (§4.3): the aggregate `All:`
token; if absent, the reverse line scan; if still absent, the luma `Y:`
fallback.  Second definition, written from the spec for comparison with
`parse_single_ssim_body`, which it must agree with. -/
def ssim_spec_body (s : List Char) : Except Unit (Option ℚ) :=
  match searchFrom matchAllNumAt s with
  | some tok => (floatOrRaise tok).map some
  | none =>
    match ssimLineScan ((splitLines (pyStrip s)).reverse) with
    | some tok => (floatOrRaise tok).map some
    | none =>
      match searchFrom matchYNumAt s with
      | some tok => (floatOrRaise tok).map some
      | none => .ok none

/-- The spec's SSIM parser with the same unparseable-to-`None` handling. -/
def ssim_spec_cascade (output : String) : Option ℚ :=
  match ssim_spec_body output.data with
  | .ok r => r
  | .error _ => none

/-- `r'PSNR\s+ch0:\s*([0-9.]+)'` anchored at the start of the text. -/
def matchPsnrCh0At (s : List Char) : Option (List Char) :=
  match dropLit? "PSNR".data s with
  | none => none
  | some r =>
    if r.takeWhile isPySpace = [] then none
    else
      match dropLit? "ch0:".data (r.dropWhile isPySpace) with
      | none => none
      | some r2 =>
        let run := (r2.dropWhile isPySpace).takeWhile isNumChar
        if run = [] then none else some run

/-- `r'([0-9.]+)\s*dB'` anchored at the start of the text (the greedy
`[0-9.]+` run cannot profitably backtrack since neither `\s` nor `d`
overlaps the class).  Returns `(capture, rest)`. -/
def matchDbAt (s : List Char) : Option (List Char × List Char) :=
  let run := s.takeWhile isNumChar
  if run = [] then none
  else
    match dropLit? "dB".data ((s.dropWhile isNumChar).dropWhile isPySpace) with
    | none => none
    | some rest => some (run, rest)

/-- `parse_single_audio_output` (lines 1203-1222): body of its `try` block.
Tier 1 `re.search(r'PSNR\s+ch0:\s*([0-9.]+)')`; tier 2
`re.findall(r'([0-9.]+)\s*dB')` taking the last capture. -/
def parse_single_audio_body (s : List Char) : Except Unit (Option ℚ) :=
  match searchFrom matchPsnrCh0At s with
  | some tok => (floatOrRaise tok).map some
  | none =>
    match (findAll matchDbAt s).getLast? with
    | some tok => (floatOrRaise tok).map some
    | none => .ok none

/-- `parse_single_audio_output`: the `except` handler returns `None`. -/
def parse_single_audio_output (output : String) : Option ℚ :=
  match parse_single_audio_body output.data with
  | .ok r => r
  | .error _ => none

/-- `r'frame=\s*(\d+)'` anchored at the start of the text, as `int`. -/
def matchFrameAt (s : List Char) : Option Nat :=
  match dropLit? "frame=".data s with
  | none => none
  | some r =>
    let run := (r.dropWhile isPySpace).takeWhile Char.isDigit
    if run = [] then none else some (digitsVal run)

/-- `re.search(r'frame=\s*(\d+)', output_line)` as `int`. -/
def frameSearch (output_line : String) : Option Nat :=
  searchFrom matchFrameAt output_line.data

/-- `max(1, self.get_total_frames(reference_file) or 0)` (line 790):
`probe` is the `ffprobe` result (`None` when unavailable). -/
def get_total_frames_clamped (probe : Option Nat) : Nat :=
  max 1 (probe.getD 0)

/-- `base_progress = 10 if comparison_type == "left_ref" else 55`. -/
def progressBase : Direction → Nat
  | .left_ref => 10
  | .right_ref => 55

/-- `extract_ffmpeg_progress` (lines 838-856): the progress value passed to
`update_progress`, or `none` when no positive frame counter is found or the
media type is not video. -/
def extract_ffmpeg_progress (output_line : String) (comparison_type : Direction)
    (media_is_video : Bool) (total_frames : Nat) : Option Nat :=
  match frameSearch output_line with
  | some curr_frame =>
    if 0 < curr_frame then
      let additional :=
        (Rat.floor (min 1 ((curr_frame : ℚ) / (total_frames : ℚ)) * 45)).toNat
      if media_is_video then some (progressBase comparison_type + additional)
      else none
    else none
  | none => none

/-- C1: for directional scores `(a, b)` and the metric's threshold `t`
(VMAF 2.0, SSIM 0.01), `determine_video_winner` returns tie iff `|a - b| < t`;
at `|a - b| = t` the decision is not tie (exclusive boundary), and otherwise
the strictly higher side wins. -/
theorem c1_video_tie_band (a b : ℚ) (m : MetricKind) :
    ((determine_video_winner (some a) (some b) m).winner = Winner.tie ↔
      |a - b| < videoThreshold m)
    ∧ (|a - b| = videoThreshold m →
        (determine_video_winner (some a) (some b) m).winner ≠ Winner.tie)
    ∧ (¬ |a - b| < videoThreshold m →
        (b < a ∧ (determine_video_winner (some a) (some b) m).winner = Winner.left)
        ∨ (a < b ∧ (determine_video_winner (some a) (some b) m).winner = Winner.right)) := by
  have ht : 0 < videoThreshold m := by
    cases m <;> norm_num [videoThreshold, vmaf_win_threshold, ssim_win_threshold]
  simp only [determine_video_winner]
  split_ifs with h1 h2
  · exact ⟨by simp [h1], fun he => absurd h1 (by rw [he]; exact lt_irrefl _),
      fun hn => absurd h1 hn⟩
  · exact ⟨by simp [h1], fun _ => by simp, fun _ => Or.inl ⟨h2, rfl⟩⟩
  · have hab : a < b := by
      rcases lt_trichotomy a b with h | h | h
      · exact h
      · exact absurd (by simpa [h] using ht) h1
      · exact absurd h h2
    exact ⟨by simp [h1], fun _ => by simp, fun _ => Or.inr ⟨hab, rfl⟩⟩

/-- Witness for `c1_video_tie_band`: at VMAF scores 95 and 97 the difference
equals the threshold 2.0 exactly, and the decision is not a tie. -/
theorem c1_video_tie_band_witness :
    (determine_video_winner (some 95) (some 97) MetricKind.VMAF).winner ≠ Winner.tie :=
  (c1_video_tie_band 95 97 MetricKind.VMAF).2.1 (by
    rw [show (95 : ℚ) - 97 = -2 by norm_num, abs_neg, abs_two]; rfl)

/-- C2: `determine_audio_winner` applies a hard-coded 1.0 dB tie band when
both PSNR scores are present (not the 2.0 dB `psnr_win_threshold` display
constant): tie iff `|a - b| < 1`, else the higher side wins; at scores
40.0 dB vs 37.5 dB the winner is left, and a pair whose difference 1.5 lies
inside the 2.0 display band is still decided (not tie). -/
theorem c2_audio_tie_band (a b : ℚ) (s0 s1 s2 : Bool) (loud : String → Option ℚ)
    (lf rf : String) :
    ((determine_audio_winner (some a) (some b) s0 s1 s2 loud lf rf).1.winner = Winner.tie ↔
      |a - b| < 1)
    ∧ (¬ |a - b| < 1 →
        (b < a ∧ (determine_audio_winner (some a) (some b) s0 s1 s2 loud lf rf).1.winner
          = Winner.left)
        ∨ (a < b ∧ (determine_audio_winner (some a) (some b) s0 s1 s2 loud lf rf).1.winner
          = Winner.right))
    ∧ (determine_audio_winner (some 40) (some (75/2)) s0 s1 s2 loud lf rf).1.winner
        = Winner.left
    ∧ ((determine_audio_winner (some 0) (some (3/2)) s0 s1 s2 loud lf rf).1.winner
        = Winner.right
      ∧ |(0 : ℚ) - 3/2| < psnr_win_threshold) := by
  refine ⟨?_, ?_, ?_, ?_, ?_⟩
  · simp only [determine_audio_winner]
    split_ifs with h1 h2 <;> simp [h1]
  · simp only [determine_audio_winner]
    split_ifs with h1 h2
    · exact fun hn => absurd h1 hn
    · exact fun _ => Or.inl ⟨h2, rfl⟩
    · intro hn
      have hab : a < b := by
        rcases lt_trichotomy a b with h | h | h
        · exact h
        · exact absurd (by simp [h] : |a - b| < 1) hn
        · exact absurd h h2
      exact Or.inr ⟨hab, rfl⟩
  · simp only [determine_audio_winner]
    rw [if_neg (by rw [show (40 : ℚ) - 75/2 = 5/2 by norm_num]; norm_num [abs_of_pos]),
      if_pos (by norm_num)]
  · simp only [determine_audio_winner]
    rw [if_neg (by rw [show (0 : ℚ) - 3/2 = -(3/2) by norm_num, abs_neg]; norm_num [abs_of_pos]),
      if_neg (by norm_num)]
  · rw [show (0 : ℚ) - 3/2 = -(3/2) by norm_num, abs_neg]
    norm_num [abs_of_pos, psnr_win_threshold]

/-- Witness for `c2_audio_tie_band`: at PSNR scores 39 and 40.2 (difference
1.2 ≥ 1) the right side wins outright. -/
theorem c2_audio_tie_band_witness :
    (determine_audio_winner (some 39) (some (201/5)) false false false
        (fun _ => none) "a.mp4" "b.mp4").1.winner = Winner.right :=
  (((c2_audio_tie_band 39 (201/5) false false false (fun _ => none) "a.mp4" "b.mp4").2.1
    (by rw [show (39 : ℚ) - 201/5 = -(6/5) by norm_num, abs_neg]
        norm_num [abs_of_pos])).resolve_left
    (fun ⟨h, _⟩ => absurd h (by norm_num))).2

/-- C4: when either directional video score is unavailable (`None`),
`determine_video_winner` returns winner tie with both scores 0, totally
(no exception propagates: the Lean function is total). -/
theorem c4_video_unavailable_tie (l r : Option ℚ) (m : MetricKind)
    (h : l = none ∨ r = none) :
    determine_video_winner l r m = ⟨Winner.tie, 0, 0⟩ := by
  rcases h with h | h <;> subst h
  · cases r <;> rfl
  · cases l <;> rfl

/-- Witness for `c4_video_unavailable_tie` at `l = none`, `r = some 5`. -/
theorem c4_video_unavailable_tie_witness :
    determine_video_winner none (some 5) MetricKind.VMAF = ⟨Winner.tie, 0, 0⟩ :=
  c4_video_unavailable_tie none (some 5) MetricKind.VMAF (Or.inl rfl)

/-- C5: when either directional audio PSNR score is unavailable and no
cancellation is observed, the decision runs the loudness fallback, which
measures loudness exactly once per side (left file then right file), performs
no PSNR invocation, returns tie with scores 0 if either loudness is
unavailable, and otherwise applies the 1.0 LUFS tie band to the two loudness
values. -/
theorem c5_audio_fallback (l r : Option ℚ) (loud : String → Option ℚ)
    (lf rf : String) (h : l = none ∨ r = none) :
    ((determine_audio_winner l r false false false loud lf rf).2
        = [AudioOp.loudnessOf lf, AudioOp.loudnessOf rf])
    ∧ (∀ ref dist, AudioOp.psnrRun ref dist ∉
        (determine_audio_winner l r false false false loud lf rf).2)
    ∧ ((loud lf = none ∨ loud rf = none) →
        (determine_audio_winner l r false false false loud lf rf).1 = ⟨Winner.tie, 0, 0⟩)
    ∧ (∀ x y, loud lf = some x → loud rf = some y →
        ((determine_audio_winner l r false false false loud lf rf).1.winner = Winner.tie ↔
          |x - y| < 1)
        ∧ (determine_audio_winner l r false false false loud lf rf).1.left_score = x
        ∧ (determine_audio_winner l r false false false loud lf rf).1.right_score = y) := by
  have key : determine_audio_winner l r false false false loud lf rf
      = run_audio_analysis_fallback false false false loud lf rf := by
    rcases h with h | h <;> subst h
    · cases r <;> rfl
    · cases l <;> rfl
  rw [key]
  refine ⟨?_, ?_, ?_, ?_⟩
  · cases hl : loud lf <;> cases hr : loud rf <;>
      simp [run_audio_analysis_fallback, hl, hr]
  · intro ref dist
    cases hl : loud lf <;> cases hr : loud rf <;>
      simp [run_audio_analysis_fallback, hl, hr]
  · rintro (hn | hn) <;> simp [run_audio_analysis_fallback, hn]
  · intro x y hx hy
    refine ⟨?_, ?_, ?_⟩ <;>
      simp only [run_audio_analysis_fallback, hx, hy, Bool.false_eq_true, if_false]
    split_ifs with h1 h2 <;> simp [h1]

/-- Witness for `c5_audio_fallback`: with both PSNR scores unavailable the
fallback trace is exactly one loudness measurement per file. -/
theorem c5_audio_fallback_witness :
    (determine_audio_winner none none false false false
        (fun f => if f = "a.mp4" then some (-10 : ℚ) else some (-23/2))
        "a.mp4" "b.mp4").2
      = [AudioOp.loudnessOf "a.mp4", AudioOp.loudnessOf "b.mp4"] :=
  (c5_audio_fallback none none
    (fun f => if f = "a.mp4" then some (-10 : ℚ) else some (-23/2))
    "a.mp4" "b.mp4" (Or.inl rfl)).1

/-- With no cancellation, `submit_tasks` submits every task. -/
theorem submit_tasks_no_stop (ts : List (Nat × String × String)) :
    ∀ j, submit_tasks (fun _ => false) j ts = ts := by
  induction ts with
  | nil => intro j; rfl
  | cons t ts ih => intro j; simp [submit_tasks, ih]

/-- C3: with no cancellation, a comparison run submits exactly
`min |left| |right|` rows, row `i` pairing `left_files[i]` with
`right_files[i]`; every submitted row's index is below the minimum, so
trailing files of the longer list never enter a comparison. -/
theorem c3_min_pairing (left_files right_files : List String) :
    (run_comparisons_submitted (fun _ => false) left_files right_files).length
      = min left_files.length right_files.length
    ∧ (∀ i, i < min left_files.length right_files.length →
        (run_comparisons_submitted (fun _ => false) left_files right_files).getD i (0, "", "")
          = (i, left_files.getD i "", right_files.getD i ""))
    ∧ (∀ t ∈ run_comparisons_submitted (fun _ => false) left_files right_files,
        t.1 < min left_files.length right_files.length) := by
  rw [run_comparisons_submitted, submit_tasks_no_stop]
  refine ⟨by simp [comparison_tasks], ?_, ?_⟩
  · intro i hi
    rw [comparison_tasks, List.getD_eq_getElem?_getD, List.getElem?_map,
      List.getElem?_range hi]
    rfl
  · intro t ht
    rw [comparison_tasks] at ht
    obtain ⟨i, hi, rfl⟩ := List.mem_map.mp ht
    simpa using List.mem_range.mp hi

/-- Witness for `c3_min_pairing`: 5 left files and 3 right files yield
exactly 3 rows, and row 2 pairs the third file of each side. -/
theorem c3_min_pairing_witness :
    (run_comparisons_submitted (fun _ => false) ["l0", "l1", "l2", "l3", "l4"]
        ["r0", "r1", "r2"]).length = 3
    ∧ (run_comparisons_submitted (fun _ => false) ["l0", "l1", "l2", "l3", "l4"]
        ["r0", "r1", "r2"]).getD 2 (0, "", "") = (2, "l2", "r2") :=
  ⟨(c3_min_pairing ["l0", "l1", "l2", "l3", "l4"] ["r0", "r1", "r2"]).1.trans rfl,
    (c3_min_pairing ["l0", "l1", "l2", "l3", "l4"] ["r0", "r1", "r2"]).2.1 2
      (by decide)⟩

/-- C6: `compare_row` yields either a complete six-field record or `none`:
any cancellation observation at its check points, or an internal error in
either stage, yields `none`; otherwise the result is the fully populated
record built from the two stage results. -/
theorem c6_row_all_or_nothing (s0 s1 s2 : Bool) (v a : Except Unit CompResult) :
    ((s0 = true ∨ s1 = true ∨ s2 = true) → compare_row s0 v s1 a s2 = none)
    ∧ (∀ e, v = .error e → compare_row s0 v s1 a s2 = none)
    ∧ (∀ e, a = .error e → compare_row s0 v s1 a s2 = none)
    ∧ (compare_row s0 v s1 a s2 = none ∨
        ∃ vr ar, v = .ok vr ∧ a = .ok ar ∧
          compare_row s0 v s1 a s2
            = some ⟨vr.winner, ar.winner, vr.left_score, vr.right_score,
                ar.left_score, ar.right_score⟩) := by
  cases s0 <;> cases s1 <;> cases s2 <;> rcases v with e | vr <;> rcases a with e' | ar <;>
    refine ⟨?_, ?_, ?_, ?_⟩ <;> simp [compare_row]

/-- Witness for `c6_row_all_or_nothing`: a cancellation observed at the first
check point yields no result even with both stages successful. -/
theorem c6_row_all_or_nothing_witness :
    compare_row true (.ok ⟨Winner.left, 90, 80⟩) false (.ok ⟨Winner.tie, 30, 30⟩) false
      = none :=
  (c6_row_all_or_nothing true false false (.ok ⟨Winner.left, 90, 80⟩)
    (.ok ⟨Winner.tie, 30, 30⟩)).1 (Or.inl rfl)

/-- Evaluation rule for `pyFloat?` on a valid token, reducing the rational
to integer-part and fractional-part digit values. -/
theorem pyFloat?_eq (cs : List Char) (ipv fpv k : Nat)
    (hd : cs.any Char.isDigit = true) (hc : cs.count '.' ≤ 1)
    (ha : cs.all isNumChar = true)
    (h1 : digitsVal (cs.takeWhile (· ≠ '.')) = ipv)
    (h2 : digitsVal ((cs.dropWhile (· ≠ '.')).drop 1) = fpv)
    (h3 : ((cs.dropWhile (· ≠ '.')).drop 1).length = k) :
    pyFloat? cs = some ((ipv : ℚ) + (fpv : ℚ) / (10 : ℚ) ^ k) := by
  simp only [pyFloat?]
  rw [if_pos ⟨hd, hc, ha⟩, h1, h2, h3]

/-- A token whose `float` conversion succeeds yields `.ok` in the `try`
body. -/
theorem floatOrRaise_ok {tok : List Char} {q : ℚ} (h : pyFloat? tok = some q) :
    floatOrRaise tok = .ok q := by
  simp [floatOrRaise, h]

/-- C7: the VMAF parser's tiers are attempted in strict order with the first
success winning: a labeled `VMAF score:` capture determines the result
whenever present; only when absent does the parser use the last capture of
the `VMAF.*?([0-9.]+)` fallback; text holding both `VMAF score: 91.23` and
an unrelated `VMAF ... 5` token yields 91.23 even though the fallback tier
alone would yield 5. -/
theorem c7_vmaf_tier_order (s : String) :
    (∀ tok, searchFrom matchVmafScoreAt s.data = some tok →
      parse_single_vmaf_output s = pyFloat? tok)
    ∧ (searchFrom matchVmafScoreAt s.data = none →
      parse_single_vmaf_output s = ((findAll matchVmafAnyAt s.data).getLast?).bind pyFloat?)
    ∧ parse_single_vmaf_output "VMAF score: 91.23\nVMAF things 5" = some (9123/100)
    ∧ ((findAll matchVmafAnyAt ("VMAF score: 91.23\nVMAF things 5").data).getLast?).bind
        pyFloat? = some 5 := by
  have tier1 : ∀ (u : String) tok, searchFrom matchVmafScoreAt u.data = some tok →
      parse_single_vmaf_output u = pyFloat? tok := by
    intro u tok h
    simp only [parse_single_vmaf_output, parse_single_vmaf_body, h]
    cases hq : pyFloat? tok <;> simp [floatOrRaise, hq, Except.map]
  have hq : pyFloat? "91.23".data = some (9123/100 : ℚ) := by
    rw [pyFloat?_eq "91.23".data 91 23 2 (by decide) (by decide) (by decide) (by decide)
      (by decide) (by decide)]
    norm_num
  refine ⟨tier1 s, ?_, ?_, ?_⟩
  · intro h
    simp only [parse_single_vmaf_output, parse_single_vmaf_body, h]
    cases hl : (findAll matchVmafAnyAt s.data).getLast? with
    | none => simp
    | some tok => cases hq2 : pyFloat? tok <;> simp [floatOrRaise, hq2, Except.map]
  · rw [tier1 _ "91.23".data (by decide), hq]
  · rw [show (findAll matchVmafAnyAt ("VMAF score: 91.23\nVMAF things 5").data).getLast?
        = some "5".data from by decide]
    show pyFloat? "5".data = some 5
    rw [pyFloat?_eq "5".data 5 0 0 (by decide) (by decide) (by decide) (by decide)
      (by decide) (by decide)]
    norm_num

/-- Witness for `c7_vmaf_tier_order`: with no labeled token the fallback
tier's last capture is the result. -/
theorem c7_vmaf_tier_order_witness :
    parse_single_vmaf_output "n:0 VMAF 87.5" = some (175/2) := by
  rw [(c7_vmaf_tier_order "n:0 VMAF 87.5").2.1 (by decide),
    show (findAll matchVmafAnyAt ("n:0 VMAF 87.5").data).getLast? = some "87.5".data
      from by decide]
  show pyFloat? "87.5".data = some (175/2)
  rw [pyFloat?_eq "87.5".data 87 5 1 (by decide) (by decide) (by decide) (by decide)
    (by decide) (by decide)]
  norm_num

/-- C9: the progress estimate for a line carrying a positive frame counter
is the per-direction offset (10 for the first pass, 55 for the second) plus
`int(min(1, frame/total) * 45)`; the total frame count is clamped to at
least 1 (so the division is never by zero), and a line with no positive
frame counter produces no estimate (the function is total and never
raises). -/
theorem c9_progress_formula :
    (∀ probe, 1 ≤ get_total_frames_clamped probe)
    ∧ (∀ probe, ((get_total_frames_clamped probe : ℚ) ≠ 0))
    ∧ (∀ (line : String) (dir : Direction) (probe : Option Nat) (f : Nat),
        frameSearch line = some f → 0 < f →
        extract_ffmpeg_progress line dir true (get_total_frames_clamped probe)
          = some (progressBase dir +
              (Rat.floor (min 1 ((f : ℚ) / (get_total_frames_clamped probe : ℚ)) * 45)).toNat))
    ∧ (∀ (line : String) (dir : Direction) (b : Bool) (t : Nat),
        frameSearch line = none → extract_ffmpeg_progress line dir b t = none) := by
  refine ⟨fun probe => le_max_left 1 _, ?_, ?_, ?_⟩
  · intro probe
    have h1 : 1 ≤ get_total_frames_clamped probe := le_max_left 1 _
    exact_mod_cast Nat.one_le_iff_ne_zero.mp h1
  · intro line dir probe f h hf
    simp [extract_ffmpeg_progress, h, hf]
  · intro line dir b t h
    simp [extract_ffmpeg_progress, h]

/-- Witness for `c9_progress_formula`: line `frame=  120 fps=30` during the
first directional pass with 240 total frames reports 10 + 22 = 32. -/
theorem c9_progress_formula_witness :
    extract_ffmpeg_progress "frame=  120 fps=30" Direction.left_ref true
      (get_total_frames_clamped (some 240)) = some 32 := by
  rw [c9_progress_formula.2.2.1 "frame=  120 fps=30" Direction.left_ref (some 240) 120
    (by decide) (by decide)]
  rw [show ((get_total_frames_clamped (some 240) : ℕ) : ℚ) = 240 from by
    norm_num [get_total_frames_clamped]]
  rw [show Rat.floor (min 1 (((120 : ℕ) : ℚ)/240) * 45)
      = ⌊min 1 (((120 : ℕ) : ℚ)/240) * 45⌋ from rfl]
  norm_num [progressBase]
  decide

/-- Successfully stripping a literal leaves a suffix of the text. -/
theorem dropLit?_suffix : ∀ (p s r : List Char), dropLit? p s = some r → r <:+ s := by
  intro p
  induction p with
  | nil =>
    intro s r h
    injection h with h
    rw [← h]
  | cons c cs ih =>
    intro s r h
    cases s with
    | nil => simp [dropLit?] at h
    | cons d ds =>
      simp only [dropLit?] at h
      split at h
      · exact (ih ds r h).trans (List.suffix_cons d ds)
      · exact absurd h (by simp)

/-- If the search driver fails, the anchored matcher fails at every suffix. -/
theorem searchFrom_none {α : Type} (m : List Char → Option α) :
    ∀ (s : List Char), searchFrom m s = none → ∀ t, t <:+ s → m t = none := by
  intro s
  induction s with
  | nil =>
    intro h t ht
    rw [List.suffix_nil.mp ht]
    exact h
  | cons c cs ih =>
    intro h t ht
    have hm : m (c :: cs) = none ∧ searchFrom m cs = none := by
      cases hmc : m (c :: cs) with
      | some x => simp [searchFrom, hmc] at h
      | none =>
        simp only [searchFrom, hmc] at h
        exact ⟨rfl, h⟩
    rcases List.suffix_cons_iff.mp ht with rfl | ht2
    · exact hm.1
    · exact ih hm.2 t ht2

/-- A successful search exhibits a suffix at which the matcher succeeds. -/
theorem searchFrom_some {α : Type} (m : List Char → Option α) :
    ∀ (s : List Char) (x : α), searchFrom m s = some x →
      ∃ t, t <:+ s ∧ m t = some x := by
  intro s
  induction s with
  | nil =>
    intro x h
    exact ⟨[], List.suffix_rfl, h⟩
  | cons c cs ih =>
    intro x h
    cases hmc : m (c :: cs) with
    | some y =>
      simp only [searchFrom, hmc] at h
      exact ⟨c :: cs, List.suffix_rfl, hmc.trans h⟩
    | none =>
      simp only [searchFrom, hmc] at h
      obtain ⟨t, ht, hmt⟩ := ih x h
      exact ⟨t, ht.trans (List.suffix_cons c cs), hmt⟩

/-- A successful lazy gap exhibits a suffix at which the inner pattern
matches. -/
theorem lazyGapTo_some {α : Type} (m : List Char → Option α) :
    ∀ (r : List Char) (x : α), lazyGapTo m r = some x →
      ∃ t, t <:+ r ∧ m t = some x := by
  intro r
  induction r with
  | nil =>
    intro x h
    exact ⟨[], List.suffix_rfl, h⟩
  | cons c cs ih =>
    intro x h
    cases hmc : m (c :: cs) with
    | some y =>
      simp only [lazyGapTo, hmc] at h
      exact ⟨c :: cs, List.suffix_rfl, hmc.trans h⟩
    | none =>
      simp only [lazyGapTo, hmc] at h
      split at h
      · exact absurd h (by simp)
      · obtain ⟨t, ht, hmt⟩ := ih x h
        exact ⟨t, ht.trans (List.suffix_cons c cs), hmt⟩

/-- The redundant second SSIM tier `SSIM.*?All:([0-9.]+)` can only succeed
where the first tier `All:([0-9.]+)` does: if the plain `All:` search fails,
so does the `SSIM`-prefixed one. -/
theorem ssimAll_search_none {s : List Char} (h : searchFrom matchAllNumAt s = none) :
    searchFrom matchSsimAllAt s = none := by
  cases he : searchFrom matchSsimAllAt s with
  | none => rfl
  | some x =>
    exfalso
    obtain ⟨t, hts, hmt⟩ := searchFrom_some matchSsimAllAt s x he
    simp only [matchSsimAllAt] at hmt
    cases hd : dropLit? "SSIM".data t with
    | none => rw [hd] at hmt; exact Option.noConfusion hmt
    | some r =>
      rw [hd] at hmt
      obtain ⟨u, hur, hu⟩ := lazyGapTo_some matchAllNumAt r x hmt
      have hus : u <:+ s := (hur.trans (dropLit?_suffix _ t r hd)).trans hts
      exact Option.noConfusion (hu.symm.trans (searchFrom_none matchAllNumAt s h u hus))

/-- C8: the SSIM parser agrees with the spec's cascade (aggregate `All:`
token, then reverse line scan, then luma `Y:` fallback, else `None`): the
first tier's capture determines the result when present; when every tier
fails the result is `None`; an aggregate-bearing text and a luma-only text
evaluate accordingly. -/
theorem c8_ssim_tier_order (s : String) :
    parse_single_ssim_output s = ssim_spec_cascade s
    ∧ (∀ tok, searchFrom matchAllNumAt s.data = some tok →
        parse_single_ssim_output s = pyFloat? tok)
    ∧ ((searchFrom matchAllNumAt s.data = none ∧
        ssimLineScan ((splitLines (pyStrip s.data)).reverse) = none ∧
        searchFrom matchYNumAt s.data = none) →
        parse_single_ssim_output s = none)
    ∧ parse_single_ssim_output "n:1 Y:0.98 U:0.95 V:0.96 All:0.9701 (15.2)"
        = some (9701/10000)
    ∧ parse_single_ssim_output "n:1 Y:0.5432" = some (679/1250) := by
  have tier1 : ∀ (u : String) tok, searchFrom matchAllNumAt u.data = some tok →
      parse_single_ssim_output u = pyFloat? tok := by
    intro u tok h
    simp only [parse_single_ssim_output, parse_single_ssim_body, h]
    cases hq : pyFloat? tok <;> simp [floatOrRaise, hq, Except.map]
  refine ⟨?_, tier1 s, ?_, ?_, ?_⟩
  · unfold parse_single_ssim_output ssim_spec_cascade parse_single_ssim_body ssim_spec_body
    cases h1 : searchFrom matchAllNumAt s.data with
    | some tok => rfl
    | none => rw [ssimAll_search_none h1]
  · rintro ⟨h1, h3, h4⟩
    simp only [parse_single_ssim_output, parse_single_ssim_body, h1,
      ssimAll_search_none h1, h3, h4]
  · rw [tier1 _ "0.9701".data (by decide),
      pyFloat?_eq "0.9701".data 0 9701 4 (by decide) (by decide) (by decide) (by decide)
        (by decide) (by decide)]
    norm_num
  · have h1 : searchFrom matchAllNumAt ("n:1 Y:0.5432").data = none := by decide
    have hq : pyFloat? "0.5432".data = some (679/1250 : ℚ) := by
      rw [pyFloat?_eq "0.5432".data 0 5432 4 (by decide) (by decide) (by decide) (by decide)
        (by decide) (by decide)]
      norm_num
    simp only [parse_single_ssim_output, parse_single_ssim_body, h1, ssimAll_search_none h1]
    rw [show ssimLineScan ((splitLines (pyStrip ("n:1 Y:0.5432").data)).reverse) = none
        from by decide]
    rw [show searchFrom matchYNumAt ("n:1 Y:0.5432").data = some "0.5432".data
        from by decide]
    simp [floatOrRaise_ok hq, Except.map]

/-- Witness for `c8_ssim_tier_order`: an aggregate token `All:0.5` parses to
one half via the first tier. -/
theorem c8_ssim_tier_order_witness :
    parse_single_ssim_output "All:0.5" = some (1/2) := by
  rw [(c8_ssim_tier_order "All:0.5").2.1 "0.5".data (by decide),
    pyFloat?_eq "0.5".data 0 5 1 (by decide) (by decide) (by decide) (by decide)
      (by decide) (by decide)]
  norm_num

/-- C10: each output parser is total: for every input text it returns a
score or `None`; an exception raised inside the `try` body (such as
`float` applied to a dots-only capture of the `[0-9.]` class) is caught and
yields `None` rather than propagating, as the dots-only concrete inputs for
each parser show. -/
theorem c10_parsers_total (s : String) :
    (parse_single_vmaf_output s = none ∨ ∃ q, parse_single_vmaf_output s = some q)
    ∧ (parse_single_ssim_output s = none ∨ ∃ q, parse_single_ssim_output s = some q)
    ∧ (parse_single_audio_output s = none ∨ ∃ q, parse_single_audio_output s = some q)
    ∧ (∀ e, parse_single_vmaf_body s.data = .error e → parse_single_vmaf_output s = none)
    ∧ (∀ e, parse_single_ssim_body s.data = .error e → parse_single_ssim_output s = none)
    ∧ (∀ e, parse_single_audio_body s.data = .error e → parse_single_audio_output s = none)
    ∧ parse_single_vmaf_body ("VMAF score: ...").data = .error ()
    ∧ parse_single_vmaf_output "VMAF score: ..." = none
    ∧ parse_single_ssim_output "All:.." = none
    ∧ parse_single_audio_output ".. dB" = none := by
  refine ⟨?_, ?_, ?_, ?_, ?_, ?_, rfl, by decide, by decide, by decide⟩
  · cases parse_single_vmaf_output s
    · exact Or.inl rfl
    · exact Or.inr ⟨_, rfl⟩
  · cases parse_single_ssim_output s
    · exact Or.inl rfl
    · exact Or.inr ⟨_, rfl⟩
  · cases parse_single_audio_output s
    · exact Or.inl rfl
    · exact Or.inr ⟨_, rfl⟩
  · intro e he; simp [parse_single_vmaf_output, he]
  · intro e he; simp [parse_single_ssim_output, he]
  · intro e he; simp [parse_single_audio_output, he]

/-- Witness for `c10_parsers_total`: the VMAF parser swallows the
`float("...")` exception at a dots-only capture. -/
theorem c10_parsers_total_witness :
    parse_single_vmaf_output "VMAF score: ..." = none :=
  (c10_parsers_total "VMAF score: ...").2.2.2.1 () rfl

end VideoBatchCompare
